import Mathlib

/-!
Shallow embedding of `src/main.rs` of `portalcorp/pgevdb`: a setup/demo
script that provisions an embedded PostgreSQL server, installs the
`pgvecto.rs` extension into its installation tree, configures and restarts
the server, and runs a fixed set of demonstration queries.

The program is straight-line I/O orchestration, so it is embedded as a
trace of effect events over an abstract filesystem.  Paths are modelled as
an absolute-flag plus a component list; the filesystem is an association
list from paths to file contents.  SQL statements are embedded as the
exact strings of the source, with structured views (and rendering
functions proved equal to those strings) where a claim needs to talk about
the statements' content.
-/

namespace Pgevdb

/-- Source constant `PG_VERSION = "16.3.0"`. -/
def PG_VERSION : String := "16.3.0"

/-- Source constant `DATABASE_NAME = "test"`. -/
def DATABASE_NAME : String := "test"

/-- The fixed archive URL downloaded by `install_pg_vectors_extension`. -/
def EXTENSION_URL : String :=
  "https://github.com/tensorchord/pgvecto.rs/releases/download/v0.3.0/vectors-pg16_x86_64-unknown-linux-gnu_0.3.0.zip"

/-- A filesystem path: whether it is absolute, and its components.
`PathBuf::from("vectors")` is the relative path `⟨false, ["vectors"]⟩`. -/
structure Path where
  absolute : Bool
  comps : List String
deriving DecidableEq

/-- `PathBuf::join` with a single (relative) component. -/
def Path.join (p : Path) (c : String) : Path :=
  ⟨p.absolute, p.comps ++ [c]⟩

/-- Resolution of a path against the process's current working directory:
an absolute path stands for itself, a relative path is taken under `cwd`. -/
def Path.resolve (cwd p : Path) : Path :=
  if p.absolute then p else ⟨cwd.absolute, cwd.comps ++ p.comps⟩

/-- The scratch directory `PathBuf::from("vectors")` used by the installer. -/
def scratchDir : Path := ⟨false, ["vectors"]⟩

/-- `d` is `p` itself or a path below `p`. -/
def Path.under (p d : Path) : Prop :=
  p.absolute = d.absolute ∧ p.comps <+: d.comps

instance (p d : Path) : Decidable (Path.under p d) := by
  unfold Path.under; exact instDecidableAnd

/-- Abstract filesystem: a list of files, each a path paired with its
content.  Directories are implicit as proper prefixes of file paths. -/
abbrev FS := List (Path × String)

/-- `Path::exists`: `p` exists when some file sits at `p` or below it. -/
def pathExists (fs : FS) (p : Path) : Prop :=
  ∃ e ∈ fs, p.under e.1

instance (fs : FS) (p : Path) : Decidable (pathExists fs p) :=
  List.decidableBEx _ fs

/-- Creating or overwriting the file at `p` with content `c`. -/
def fsWrite (fs : FS) (p : Path) (c : String) : FS :=
  fs.filter (fun e => !(decide (e.1 = p))) ++ [(p, c)]

/-- Content of the file at `p`, if any. -/
def fsRead (fs : FS) (p : Path) : Option String :=
  (fs.find? (fun e => decide (e.1 = p))).map Prod.snd

/-- Source `is_pg_vectors_extension_installed`: a pure existence check of
`install_dir/16.3.0/lib/vectors.so`. -/
def is_pg_vectors_extension_installed (fs : FS) (install_dir : Path) : Prop :=
  pathExists fs (((install_dir.join PG_VERSION).join "lib").join "vectors.so")

instance (fs : FS) (install_dir : Path) :
    Decidable (is_pg_vectors_extension_installed fs install_dir) := by
  unfold is_pg_vectors_extension_installed; infer_instance

/-- Rust `str::starts_with`: the pattern's characters are a prefix of the
string's characters. -/
def strStartsWith (s pat : String) : Bool :=
  pat.data.isPrefixOf s.data

/-- One directory entry as observed by `std::fs::read_dir`. -/
structure DirEntry where
  name : String
  is_file : Bool
deriving DecidableEq

/-- Effect events of the program: process lifecycle, pool lifecycle,
SQL execution, HTTP, filesystem mutation and stdout lines.  Pool handles
are numbered in order of creation (`0` for the initial pool). -/
inductive Ev where
  | readPasswordFile
  | serverSetup
  | serverStart
  | serverStop
  | dbExistsCheck (name : String)
  | createDatabase (name : String)
  | poolConnect (id : Nat) (url : String)
  | poolClose (id : Nat)
  | poolAcquire (id : Nat)
  | connExec (sql : String)
  | poolQuery (id : Nat) (sql : String)
  | httpGet (url : String)
  | extractZip (target : Path) (files : List (String × String))
  | copyFile (src dst : Path)
  | removeDirAll (d : Path)
  | printLine (s : String)
deriving DecidableEq

/-- Effect of one event on the abstract filesystem.  `extractZip` writes
each archive member under the target directory (overwriting existing
files), `copyFile` writes the destination with the source's content, and
`removeDirAll` removes every file at or below the directory. -/
def applyEv (fs : FS) : Ev → FS
  | .extractZip t files =>
      files.foldl (fun acc f => fsWrite acc (t.join f.1) f.2) fs
  | .copyFile src dst => fsWrite fs dst ((fsRead fs src).getD "")
  | .removeDirAll d => fs.filter (fun e => !(decide (d.under e.1)))
  | _ => fs

/-- Effect of a trace of events, applied left to right. -/
def applyTrace (fs : FS) (tr : List Ev) : FS :=
  tr.foldl applyEv fs

/-- Paths written (created or overwritten) by one event. -/
def writesOfEv : Ev → List Path
  | .extractZip t files => files.map (fun f => t.join f.1)
  | .copyFile _ dst => [dst]
  | _ => []

/-- Paths written by a trace. -/
def writesOf (tr : List Ev) : List Path :=
  tr.flatMap writesOfEv

/-- Directories removed recursively by a trace. -/
def removesOf (tr : List Ev) : List Path :=
  tr.flatMap fun ev => match ev with
    | .removeDirAll d => [d]
    | _ => []

/-! ### The installer (`install_pg_vectors_extension`), success trace -/

/-- The copy events of the `read_dir` loop: every directory entry that is
a file and whose name starts with `"vectors--"` is copied from the scratch
directory into the `share/extension` directory. -/
def sqlCopyEvents (extension_dir : Path) (listing : List DirEntry) : List Ev :=
  (listing.filter (fun e => e.is_file && strStartsWith e.name "vectors--")).map
    (fun e => Ev.copyFile (scratchDir.join e.name) (extension_dir.join e.name))

/-- The source's `pkglibdir`: `install_dir/16.3.0/lib`. -/
def pkglibdirOf (install_dir : Path) : Path :=
  (install_dir.join PG_VERSION).join "lib"

/-- The source's `sharedir`: `install_dir/16.3.0/share`. -/
def sharedirOf (install_dir : Path) : Path :=
  (install_dir.join PG_VERSION).join "share"

/-- The source's `extension_dir`: `install_dir/16.3.0/share/extension`. -/
def extensionDirOf (install_dir : Path) : Path :=
  (sharedirOf install_dir).join "extension"

/-- Success-path trace of `install_pg_vectors_extension install_dir`:
HTTP GET of the fixed URL, extraction of the archive (`archive` lists the
archive members) into the scratch directory, copy of `vectors.so` into
`<install_dir>/16.3.0/lib`, copy of the `vectors--*` files and of
`vectors.control` into `<install_dir>/16.3.0/share/extension`, then
recursive deletion of the scratch directory.  `listing` is what
`read_dir("vectors")` observes. -/
def install_pg_vectors_extension_trace (install_dir : Path)
    (archive : List (String × String)) (listing : List DirEntry) : List Ev :=
  [Ev.httpGet EXTENSION_URL,
   Ev.extractZip scratchDir archive,
   Ev.copyFile (scratchDir.join "vectors.so") ((pkglibdirOf install_dir).join "vectors.so")]
  ++ sqlCopyEvents (extensionDirOf install_dir) listing
  ++ [Ev.copyFile (scratchDir.join "vectors.control")
        ((extensionDirOf install_dir).join "vectors.control"),
      Ev.removeDirAll scratchDir]

/-! ### SQL statements, exactly as in the source -/

/-- First statement of `configure_pg_vectors_extension`. -/
def ALTER_PRELOAD_SQL : String :=
  "ALTER SYSTEM SET shared_preload_libraries = \"vectors.so\""

/-- Second statement of `configure_pg_vectors_extension`. -/
def ALTER_SEARCH_PATH_SQL : String :=
  "ALTER SYSTEM SET search_path = \"$user\", public, vectors"

/-- The statement of `enable_pg_vectors_extension`. -/
def CREATE_EXTENSION_SQL : String := "CREATE EXTENSION vectors;"

/-- The statement of `create_table_items` (verbatim, with the source's
indentation). -/
def CREATE_TABLE_ITEMS_SQL : String :=
  "CREATE TABLE IF NOT EXISTS items (\n            id bigserial PRIMARY KEY,\n            embedding vector(3) NOT NULL\n        );"

/-- First statement of `insert_vector_data` (textual vector literals). -/
def INSERT_TEXTUAL_SQL : String :=
  "INSERT INTO items (embedding) VALUES ('[1,2,3]'), ('[4,5,6]');"

/-- Second statement of `insert_vector_data` (typed real-array casts). -/
def INSERT_CAST_SQL : String :=
  "INSERT INTO items (embedding) VALUES (ARRAY[1, 2, 3]::real[]), (ARRAY[4, 5, 6]::real[]);"

/-- The three queries of `demonstrate_vector_operations`, in array order. -/
def DEMO_QUERIES : List String :=
  ["SELECT '[1, 2, 3]'::vector <-> '[3, 2, 1]'::vector AS squared_euclidean_distance;",
   "SELECT '[1, 2, 3]'::vector <#> '[3, 2, 1]'::vector AS negative_dot_product;",
   "SELECT '[1, 2, 3]'::vector <=> '[3, 2, 1]'::vector AS cosine_distance;"]

/-- The query of `search_similar_vectors`. -/
def SEARCH_SQL : String :=
  "SELECT id, embedding::text FROM items ORDER BY embedding <-> '[3,2,1]' LIMIT 5;"

/-! ### Structured views of the SQL statements -/

/-- Rendering of an integer vector without spaces, as in `'[1,2,3]'`. -/
def renderVec (v : List Int) : String :=
  "[" ++ String.intercalate "," (v.map toString) ++ "]"

/-- Rendering of an integer vector with spaces, as in `ARRAY[1, 2, 3]`. -/
def renderVecSpaced (v : List Int) : String :=
  "[" ++ String.intercalate ", " (v.map toString) ++ "]"

/-- One VALUES item of an INSERT: a textual vector literal or a typed
real-array cast. -/
inductive InsertValue where
  | textual (v : List Int)
  | realArrayCast (v : List Int)
deriving DecidableEq

/-- The vector a VALUES item stores. -/
def InsertValue.vec : InsertValue → List Int
  | .textual v => v
  | .realArrayCast v => v

/-- Whether a VALUES item uses the textual literal syntax. -/
def InsertValue.isTextual : InsertValue → Bool
  | .textual _ => true
  | .realArrayCast _ => false

/-- Rendering of one VALUES item. -/
def renderInsertValue : InsertValue → String
  | .textual v => "('" ++ renderVec v ++ "')"
  | .realArrayCast v => "(ARRAY" ++ renderVecSpaced v ++ "::real[])"

/-- A single-column INSERT statement. -/
structure InsertStmt where
  table : String
  column : String
  values : List InsertValue
deriving DecidableEq

/-- Rendering of an INSERT statement. -/
def renderInsertStmt (s : InsertStmt) : String :=
  "INSERT INTO " ++ s.table ++ " (" ++ s.column ++ ") VALUES "
  ++ String.intercalate ", " (s.values.map renderInsertValue) ++ ";"

/-- Structured view of the first INSERT of `insert_vector_data`. -/
def insertStmt1 : InsertStmt :=
  ⟨"items", "embedding", [.textual [1, 2, 3], .textual [4, 5, 6]]⟩

/-- Structured view of the second INSERT of `insert_vector_data`. -/
def insertStmt2 : InsertStmt :=
  ⟨"items", "embedding", [.realArrayCast [1, 2, 3], .realArrayCast [4, 5, 6]]⟩

/-- All rows inserted by one run of `insert_vector_data`, in order. -/
def insertedValues : List InsertValue :=
  insertStmt1.values ++ insertStmt2.values

/-- An `ALTER SYSTEM SET` statement. -/
structure AlterSystemSet where
  param : String
  value : String
deriving DecidableEq

/-- Rendering of an `ALTER SYSTEM SET` statement. -/
def renderAlterSystemSet (a : AlterSystemSet) : String :=
  "ALTER SYSTEM SET " ++ a.param ++ " = " ++ a.value

/-- Structured view of the preload-libraries statement. -/
def preloadSetting : AlterSystemSet :=
  ⟨"shared_preload_libraries", "\"vectors.so\""⟩

/-- Structured view of the search-path statement. -/
def searchPathSetting : AlterSystemSet :=
  ⟨"search_path", "\"$user\", public, vectors"⟩

/-- A distance-operator expression between two vector literals. -/
structure DistanceQuery where
  left : List Int
  op : String
  right : List Int
  label : String
deriving DecidableEq

/-- Rendering of a distance-operator query. -/
def renderDistanceQuery (q : DistanceQuery) : String :=
  "SELECT '" ++ renderVecSpaced q.left ++ "'::vector " ++ q.op ++ " '"
  ++ renderVecSpaced q.right ++ "'::vector AS " ++ q.label ++ ";"

/-- Structured view of the three demonstration queries. -/
def demoDistanceQueries : List DistanceQuery :=
  [⟨[1, 2, 3], "<->", [3, 2, 1], "squared_euclidean_distance"⟩,
   ⟨[1, 2, 3], "<#>", [3, 2, 1], "negative_dot_product"⟩,
   ⟨[1, 2, 3], "<=>", [3, 2, 1], "cosine_distance"⟩]

/-- A nearest-neighbor ordering query with a row limit. -/
structure SearchQuery where
  target : List Int
  limit : Nat
deriving DecidableEq

/-- Rendering of the nearest-neighbor query. -/
def renderSearchQuery (q : SearchQuery) : String :=
  "SELECT id, embedding::text FROM items ORDER BY embedding <-> '"
  ++ renderVec q.target ++ "' LIMIT " ++ toString q.limit ++ ";"

/-- Structured view of the `search_similar_vectors` query. -/
def searchQueryView : SearchQuery := ⟨[3, 2, 1], 5⟩

/-! ### The installer, fallible run (for the error-handling claim) -/

/-- Outcomes of the installer's fallible primitives.  An event is recorded
in the trace only when the corresponding operation succeeded, so the trace
is the log of effects actually performed. -/
structure InstallEnv where
  get_response : Except String Unit
  get_bytes : Except String Unit
  extract : Except String Unit
  archive : List (String × String)
  read_dir : Except String (List (Except String DirEntry))
  copy : Path → Path → Except String Unit
  remove_dir_all : Except String Unit

/-- The `read_dir` loop of the installer: each entry is itself fallible
(`entry?`); file entries named `vectors--*` are copied, and the first
error aborts the loop. -/
def installCopyLoop (env : InstallEnv) (extension_dir : Path) :
    List (Except String DirEntry) → List Ev × Option String
  | [] => ([], none)
  | Except.error e :: _ => ([], some e)
  | Except.ok ent :: rest =>
    if ent.is_file && strStartsWith ent.name "vectors--" then
      match env.copy (scratchDir.join ent.name) (extension_dir.join ent.name) with
      | Except.error e => ([], some e)
      | Except.ok _ =>
        let r := installCopyLoop env extension_dir rest
        (Ev.copyFile (scratchDir.join ent.name) (extension_dir.join ent.name) :: r.1, r.2)
    else installCopyLoop env extension_dir rest

/-- The first three success events of the installer: download, extraction,
library copy. -/
def installHead3 (env : InstallEnv) (install_dir : Path) : List Ev :=
  [Ev.httpGet EXTENSION_URL, Ev.extractZip scratchDir env.archive,
   Ev.copyFile (scratchDir.join "vectors.so") ((pkglibdirOf install_dir).join "vectors.so")]

/-- Fallible run of `install_pg_vectors_extension install_dir`: performs
the steps in source order, stops at the first failing primitive and
returns its error unchanged (the `?` operator), together with the events
performed up to that point. -/
def install_pg_vectors_extension_run (env : InstallEnv) (install_dir : Path) :
    List Ev × Option String :=
  match env.get_response with
  | Except.error e => ([], some e)
  | Except.ok _ =>
  match env.get_bytes with
  | Except.error e => ([], some e)
  | Except.ok _ =>
  match env.extract with
  | Except.error e => ([Ev.httpGet EXTENSION_URL], some e)
  | Except.ok _ =>
  match env.copy (scratchDir.join "vectors.so") ((pkglibdirOf install_dir).join "vectors.so") with
  | Except.error e =>
      ([Ev.httpGet EXTENSION_URL, Ev.extractZip scratchDir env.archive], some e)
  | Except.ok _ =>
  match env.read_dir with
  | Except.error e => (installHead3 env install_dir, some e)
  | Except.ok listing =>
  match installCopyLoop env (extensionDirOf install_dir) listing with
  | (tr, some e) => (installHead3 env install_dir ++ tr, some e)
  | (tr, none) =>
  match env.copy (scratchDir.join "vectors.control")
      ((extensionDirOf install_dir).join "vectors.control") with
  | Except.error e => (installHead3 env install_dir ++ tr, some e)
  | Except.ok _ =>
  match env.remove_dir_all with
  | Except.error e =>
      (installHead3 env install_dir ++ tr
       ++ [Ev.copyFile (scratchDir.join "vectors.control")
             ((extensionDirOf install_dir).join "vectors.control")],
       some e)
  | Except.ok _ =>
      (installHead3 env install_dir ++ tr
       ++ [Ev.copyFile (scratchDir.join "vectors.control")
             ((extensionDirOf install_dir).join "vectors.control"),
           Ev.removeDirAll scratchDir],
       none)

/-- The entries `read_dir` produced, or `[]` if `read_dir` itself failed. -/
def readDirEntriesOf (env : InstallEnv) : List (Except String DirEntry) :=
  match env.read_dir with
  | Except.ok l => l
  | Except.error _ => []

/-- The error `e` is the verbatim error of one of the installer's
primitives: nothing was wrapped, downgraded or replaced. -/
def errorFromPrimitive (env : InstallEnv) (e : String) : Prop :=
  env.get_response = Except.error e
  ∨ env.get_bytes = Except.error e
  ∨ env.extract = Except.error e
  ∨ env.read_dir = Except.error e
  ∨ (Except.error e : Except String DirEntry) ∈ readDirEntriesOf env
  ∨ (∃ src dst, env.copy src dst = Except.error e)
  ∨ env.remove_dir_all = Except.error e

/-! ### The other components' traces -/

/-- Trace of `configure_pg_vectors_extension`: exactly two statements on
the one given connection. -/
def configure_pg_vectors_extension_trace : List Ev :=
  [Ev.connExec ALTER_PRELOAD_SQL, Ev.connExec ALTER_SEARCH_PATH_SQL]

/-- Trace of `enable_pg_vectors_extension` on the pool numbered `pid`. -/
def enable_pg_vectors_extension_trace (pid : Nat) : List Ev :=
  [Ev.poolQuery pid CREATE_EXTENSION_SQL]

/-- Trace of `create_table_items` on the pool numbered `pid`. -/
def create_table_items_trace (pid : Nat) : List Ev :=
  [Ev.poolQuery pid CREATE_TABLE_ITEMS_SQL]

/-- Trace of `insert_vector_data` on the pool numbered `pid`. -/
def insert_vector_data_trace (pid : Nat) : List Ev :=
  [Ev.poolQuery pid INSERT_TEXTUAL_SQL, Ev.poolQuery pid INSERT_CAST_SQL]

/-- Trace of `demonstrate_vector_operations`: each query is run
(`fetch_one`) and its result printed; `res` gives the numeric result of
each query as rendered for printing. -/
def demonstrate_vector_operations_trace (pid : Nat) (res : String → String) : List Ev :=
  DEMO_QUERIES.flatMap fun q => [Ev.poolQuery pid q, Ev.printLine (q ++ ": " ++ res q)]

/-- Trace of `search_similar_vectors`: the one query, the header line,
then one line per returned row (`rows` are the id/embedding-text pairs the
database returned). -/
def search_similar_vectors_trace (pid : Nat) (rows : List (Int × String)) : List Ev :=
  [Ev.poolQuery pid SEARCH_SQL, Ev.printLine "Similar vectors:"]
  ++ rows.map fun r => Ev.printLine ("ID: " ++ toString r.1 ++ ", Embedding: " ++ r.2)

/-! ### `main` -/

/-- The environment `main` runs against: the working directory, the
filesystem at the time of the installed check, the outcomes of the checks
and of the external world the demo observes. -/
structure MainEnv where
  cwd : Path
  fs0 : FS
  password_file_exists : Bool
  password_file_display : String
  password_display : String
  db_exists : Bool
  database_url : String
  archive : List (String × String)
  listing : List DirEntry
  dist_result : String → String
  search_rows : List (Int × String)

/-- The installation directory `<cwd>/data/pg` of a run. -/
def installationDirOf (env : MainEnv) : Path :=
  (env.cwd.join "data").join "pg"

/-- The demo section of `main` (always executed): table creation, inserts,
distance demonstrations and the similarity search, with their `println!`
banners, all on the pool numbered `pid`. -/
def demoTrace (pid : Nat) (env : MainEnv) : List Ev :=
  [Ev.printLine "Creating table 'items' with vector column"]
  ++ create_table_items_trace pid
  ++ [Ev.printLine "Inserting vector data"]
  ++ insert_vector_data_trace pid
  ++ [Ev.printLine "Demonstrating vector operations"]
  ++ demonstrate_vector_operations_trace pid env.dist_result
  ++ [Ev.printLine "Searching for similar vectors"]
  ++ search_similar_vectors_trace pid env.search_rows

/-- The events of `main` before the installed check: settings and password
handling, server setup and start, database ensure, first pool. -/
def startTrace (env : MainEnv) : List Ev :=
  (if env.password_file_exists then [Ev.readPasswordFile] else [])
  ++ [Ev.printLine ("Password file: " ++ env.password_file_display),
      Ev.printLine ("Password: " ++ env.password_display),
      Ev.serverSetup, Ev.serverStart,
      Ev.dbExistsCheck DATABASE_NAME]
  ++ (if env.db_exists then [] else [Ev.createDatabase DATABASE_NAME])
  ++ [Ev.poolConnect 0 env.database_url]

/-- The installation block of `main`, entered only when the installed
check is false: acquire a connection from the first pool, install,
configure, restart the server, close the old pool, build the new pool,
and enable the extension on it. -/
def installBlockTrace (env : MainEnv) : List Ev :=
  [Ev.poolAcquire 0]
  ++ install_pg_vectors_extension_trace (installationDirOf env) env.archive env.listing
  ++ configure_pg_vectors_extension_trace
  ++ [Ev.serverStop, Ev.serverStart, Ev.poolClose 0, Ev.poolConnect 1 env.database_url]
  ++ enable_pg_vectors_extension_trace 1

/-- Success-path trace of `main`: start, ensure database, first pool,
then the installation block if and only if the on-disk installed check is
false, then the demo on whichever pool is current. -/
def mainTrace (env : MainEnv) : List Ev :=
  startTrace env
  ++ (if is_pg_vectors_extension_installed env.fs0 (installationDirOf env)
      then []
      else installBlockTrace env)
  ++ demoTrace
      (if is_pg_vectors_extension_installed env.fs0 (installationDirOf env) then 0 else 1)
      env

/-- The SQL strings the demo section can run. -/
def demoSqls : List String :=
  [CREATE_TABLE_ITEMS_SQL, INSERT_TEXTUAL_SQL, INSERT_CAST_SQL] ++ DEMO_QUERIES ++ [SEARCH_SQL]

/-- The SQL texts of the `poolQuery` events of a trace, in order. -/
def queryTextsOf (tr : List Ev) : List String :=
  tr.filterMap fun ev => match ev with
    | .poolQuery _ s => some s
    | _ => none

/-- The stdout lines of a trace, in order. -/
def printsOf (tr : List Ev) : List String :=
  tr.filterMap fun ev => match ev with
    | .printLine s => some s
    | _ => none

/-! ### Items-table model (for the accumulation claim) -/

/-- Effect of an INSERT statement on the rows of the items table. -/
def applyInsertStmt (rows : List (List Int)) (s : InsertStmt) : List (List Int) :=
  rows ++ s.values.map InsertValue.vec

/-- Effect of `create_table_items` on the table state (`none` = table
absent): `CREATE TABLE IF NOT EXISTS` creates an empty table only when it
is absent and leaves an existing table untouched. -/
def create_table_items_state :
    Option (List (List Int)) → Option (List (List Int))
  | some rows => some rows
  | none => some []

/-- Effect of one run of the demo section on the persistent items table:
conditional creation followed by the two unconditional INSERTs. -/
def demoTableRun (t : Option (List (List Int))) : Option (List (List Int)) :=
  match create_table_items_state t with
  | some rows => some (applyInsertStmt (applyInsertStmt rows insertStmt1) insertStmt2)
  | none => none

/-- Classification of the events that can occur in `startTrace`. -/
def startEvOk (env : MainEnv) : Ev → Prop
  | .readPasswordFile => True
  | .printLine _ => True
  | .serverSetup => True
  | .serverStart => True
  | .dbExistsCheck n => n = DATABASE_NAME
  | .createDatabase n => n = DATABASE_NAME
  | .poolConnect i u => i = 0 ∧ u = env.database_url
  | _ => False

/-- Classification of the events that can occur in `demoTrace pid`: only
queries on pool `pid` with one of the demo SQL texts, and stdout lines. -/
def demoEvOk (pid : Nat) : Ev → Prop
  | .poolQuery p s => p = pid ∧ s ∈ demoSqls
  | .printLine _ => True
  | _ => False

/-! ### Concrete sample inputs (used by the witness theorems) -/

/-- A concrete environment for `main`: fresh filesystem (extension not yet
installed), database absent, a three-file archive. -/
def sampleEnv : MainEnv :=
  ⟨⟨true, ["root"]⟩, [], false, "pf", "pw", false, "postgres://local/test",
   [("vectors.so", "so"), ("vectors--0.3.0.sql", "sql"), ("vectors.control", "ctl")],
   [⟨"vectors.so", true⟩, ⟨"vectors--0.3.0.sql", true⟩, ⟨"vectors.control", true⟩],
   fun _ => "8", [(1, "[1,2,3]")]⟩

/-- A concrete environment for `main` in which the extension library file
is already present on disk (with arbitrary content). -/
def sampleEnvInstalled : MainEnv :=
  ⟨⟨true, ["root"]⟩,
   [(⟨true, ["root", "data", "pg", "16.3.0", "lib", "vectors.so"]⟩, "whatever")],
   true, "pf", "pw", true, "postgres://local/test",
   [], [], fun _ => "8", []⟩

/-- A concrete installation directory. -/
def sampleInstallDir : Path := ⟨true, ["root", "data", "pg"]⟩

/-- A concrete installer environment in which every step succeeds except
the copy of `vectors.control`, which fails with `"disk full"`. -/
def failingCopyEnv : InstallEnv :=
  ⟨Except.ok (), Except.ok (), Except.ok (),
   [("vectors.so", "so"), ("vectors--0.3.0.sql", "sql"), ("vectors.control", "ctl")],
   Except.ok [Except.ok ⟨"vectors--0.3.0.sql", true⟩],
   fun _ dst => if dst.comps.getLast? = some "vectors.control"
                then Except.error "disk full" else Except.ok (),
   Except.ok ()⟩

end Pgevdb

/-! ## Helper lemmas -/

namespace Pgevdb

set_option maxRecDepth 20000

theorem Path.under_refl (p : Path) : p.under p :=
  ⟨rfl, List.prefix_refl _⟩

theorem Path.under_join (p : Path) (c : String) : p.under (p.join c) :=
  ⟨rfl, by simp [Path.join]⟩

theorem pathExists_fsWrite_self (fs : FS) (p : Path) (c : String) :
    pathExists (fsWrite fs p c) p := by
  refine ⟨(p, c), ?_, Path.under_refl p⟩
  simp [fsWrite]

theorem pathExists_fsWrite_mono (fs : FS) (p q : Path) (c : String)
    (h : pathExists fs p) : pathExists (fsWrite fs q c) p := by
  obtain ⟨e, he, hu⟩ := h
  by_cases heq : e.1 = q
  · exact ⟨(q, c), by simp [fsWrite], heq ▸ hu⟩
  · exact ⟨e, by simp [fsWrite, List.mem_filter, he, heq], hu⟩

theorem pathExists_extract_mono (t : Path) (files : List (String × String))
    (fs : FS) (p : Path) (h : pathExists fs p) :
    pathExists (files.foldl (fun acc f => fsWrite acc (t.join f.1) f.2) fs) p := by
  induction files generalizing fs with
  | nil => exact h
  | cons f rest ih =>
      exact ih _ (pathExists_fsWrite_mono _ _ _ _ h)

theorem pathExists_applyEv_mono (fs : FS) (p : Path) (ev : Ev)
    (hev : ∀ d, ev ≠ Ev.removeDirAll d) (h : pathExists fs p) :
    pathExists (applyEv fs ev) p := by
  cases ev with
  | extractZip t files => exact pathExists_extract_mono t files fs p h
  | copyFile src dst => exact pathExists_fsWrite_mono _ _ _ _ h
  | removeDirAll d => exact absurd rfl (hev d)
  | _ => exact h

theorem applyTrace_append (fs : FS) (a b : List Ev) :
    applyTrace fs (a ++ b) = applyTrace (applyTrace fs a) b :=
  List.foldl_append _ _ _ _

theorem pathExists_applyTrace_mono (tr : List Ev) (fs : FS) (p : Path)
    (hnr : ∀ d, Ev.removeDirAll d ∉ tr) (h : pathExists fs p) :
    pathExists (applyTrace fs tr) p := by
  induction tr generalizing fs with
  | nil => exact h
  | cons ev rest ih =>
      have hev : ∀ d, ev ≠ Ev.removeDirAll d := by
        intro d hd
        exact hnr d (by simp [hd])
      have hrest : ∀ d, Ev.removeDirAll d ∉ rest := by
        intro d hd
        exact hnr d (by simp [hd])
      exact ih _ hrest (pathExists_applyEv_mono fs p ev hev h)

theorem copies_persist (tr : List Ev) (fs : FS) (src dst : Path)
    (hnr : ∀ d, Ev.removeDirAll d ∉ tr) (hm : Ev.copyFile src dst ∈ tr) :
    pathExists (applyTrace fs tr) dst := by
  obtain ⟨a, b, rfl⟩ := List.append_of_mem hm
  rw [show a ++ Ev.copyFile src dst :: b = (a ++ [Ev.copyFile src dst]) ++ b by simp,
      applyTrace_append, applyTrace_append]
  have hb : ∀ d, Ev.removeDirAll d ∉ b := by
    intro d hd
    exact hnr d (by simp [hd])
  refine pathExists_applyTrace_mono b _ dst hb ?_
  exact pathExists_fsWrite_self _ _ _

theorem remove_kills (fs : FS) (d : Path) :
    ¬ pathExists (applyEv fs (Ev.removeDirAll d)) d := by
  rintro ⟨e, he, hu⟩
  simp only [applyEv, List.mem_filter] at he
  exact absurd (decide_eq_true hu) (by simpa using he.2)

theorem scratch_gone_after_install (install_dir : Path)
    (archive : List (String × String)) (listing : List DirEntry) (fs : FS) :
    ¬ pathExists
      (applyTrace fs (install_pg_vectors_extension_trace install_dir archive listing))
      scratchDir := by
  have hdecomp :
      install_pg_vectors_extension_trace install_dir archive listing
        = ([Ev.httpGet EXTENSION_URL,
            Ev.extractZip scratchDir archive,
            Ev.copyFile (scratchDir.join "vectors.so")
              ((pkglibdirOf install_dir).join "vectors.so")]
           ++ sqlCopyEvents (extensionDirOf install_dir) listing
           ++ [Ev.copyFile (scratchDir.join "vectors.control")
                 ((extensionDirOf install_dir).join "vectors.control")])
          ++ [Ev.removeDirAll scratchDir] := by
    simp [install_pg_vectors_extension_trace]
  rw [hdecomp, applyTrace_append]
  exact remove_kills _ _

theorem loop_no_remove (env : InstallEnv) (x : Path)
    (l : List (Except String DirEntry)) (d : Path) :
    Ev.removeDirAll d ∉ (installCopyLoop env x l).1 := by
  induction l with
  | nil => simp [installCopyLoop]
  | cons item rest ih =>
      cases item with
      | error e => simp [installCopyLoop]
      | ok ent =>
          by_cases hf : (ent.is_file && strStartsWith ent.name "vectors--") = true
          · simp only [installCopyLoop, hf, if_true]
            cases hc : env.copy (scratchDir.join ent.name) (x.join ent.name) with
            | error e => simp
            | ok _ => simpa using ih
          · simpa [installCopyLoop, hf] using ih

theorem loop_error_from (env : InstallEnv) (x : Path)
    (l : List (Except String DirEntry)) (e : String)
    (h : (installCopyLoop env x l).2 = some e) :
    (Except.error e : Except String DirEntry) ∈ l
      ∨ ∃ src dst, env.copy src dst = Except.error e := by
  induction l with
  | nil => simp [installCopyLoop] at h
  | cons item rest ih =>
      cases item with
      | error e' =>
          simp only [installCopyLoop, Option.some_inj] at h
          exact Or.inl (by simp [h])
      | ok ent =>
          by_cases hf : (ent.is_file && strStartsWith ent.name "vectors--") = true
          · simp only [installCopyLoop, hf, if_true] at h
            cases hc : env.copy (scratchDir.join ent.name) (x.join ent.name) with
            | error e' =>
                rw [hc] at h
                simp only [Option.some_inj] at h
                exact Or.inr ⟨_, _, h ▸ hc⟩
            | ok _ =>
                rw [hc] at h
                simp only at h
                rcases ih h with hl | hr
                · exact Or.inl (List.mem_cons_of_mem _ hl)
                · exact Or.inr hr
          · simp only [installCopyLoop, hf, if_false] at h
            rcases ih h with hl | hr
            · exact Or.inl (List.mem_cons_of_mem _ hl)
            · exact Or.inr hr

theorem run_error_shape (env : InstallEnv) (d : Path) (e : String)
    (h : (install_pg_vectors_extension_run env d).2 = some e) :
    errorFromPrimitive env e
    ∧ ∀ dd, Ev.removeDirAll dd ∉ (install_pg_vectors_extension_run env d).1 := by
  unfold install_pg_vectors_extension_run at h ⊢
  cases hg : env.get_response with
  | error e1 =>
      simp only [hg] at h ⊢
      obtain rfl : e1 = e := by simpa using h
      exact ⟨Or.inl hg, by simp⟩
  | ok _ =>
  simp only [hg] at h ⊢
  cases hb : env.get_bytes with
  | error e1 =>
      simp only [hb] at h ⊢
      obtain rfl : e1 = e := by simpa using h
      exact ⟨Or.inr (Or.inl hb), by simp⟩
  | ok _ =>
  simp only [hb] at h ⊢
  cases hx : env.extract with
  | error e1 =>
      simp only [hx] at h ⊢
      obtain rfl : e1 = e := by simpa using h
      exact ⟨Or.inr (Or.inr (Or.inl hx)), by simp⟩
  | ok _ =>
  simp only [hx] at h ⊢
  cases hc1 : env.copy (scratchDir.join "vectors.so") ((pkglibdirOf d).join "vectors.so") with
  | error e1 =>
      simp only [hc1] at h ⊢
      obtain rfl : e1 = e := by simpa using h
      exact ⟨Or.inr (Or.inr (Or.inr (Or.inr (Or.inr (Or.inl ⟨_, _, hc1⟩))))), by simp⟩
  | ok _ =>
  simp only [hc1] at h ⊢
  cases hr : env.read_dir with
  | error e1 =>
      simp only [hr] at h ⊢
      obtain rfl : e1 = e := by simpa using h
      refine ⟨Or.inr (Or.inr (Or.inr (Or.inl hr))), ?_⟩
      intro dd hdd
      simp [installHead3] at hdd
  | ok listing =>
  simp only [hr] at h ⊢
  cases hl : installCopyLoop env (extensionDirOf d) listing with
  | mk tr r =>
  have htr : ∀ dd, Ev.removeDirAll dd ∉ tr := by
    intro dd
    have hnr := loop_no_remove env (extensionDirOf d) listing dd
    rw [hl] at hnr
    exact hnr
  cases r with
  | some e1 =>
      simp only [hl] at h ⊢
      have he : e1 = e := by simpa using h
      have hl2 : (installCopyLoop env (extensionDirOf d) listing).2 = some e := by
        rw [hl, he]
      refine ⟨?_, ?_⟩
      · rcases loop_error_from env (extensionDirOf d) listing e hl2 with hmem | hcopy
        · refine Or.inr (Or.inr (Or.inr (Or.inr (Or.inl ?_))))
          simp only [readDirEntriesOf, hr]
          exact hmem
        · exact Or.inr (Or.inr (Or.inr (Or.inr (Or.inr (Or.inl hcopy)))))
      · intro dd hdd
        rcases List.mem_append.mp hdd with h1 | h2
        · simp [installHead3] at h1
        · exact htr dd h2
  | none =>
  simp only [hl] at h ⊢
  cases hc2 : env.copy (scratchDir.join "vectors.control")
      ((extensionDirOf d).join "vectors.control") with
  | error e1 =>
      simp only [hc2] at h ⊢
      obtain rfl : e1 = e := by simpa using h
      refine ⟨Or.inr (Or.inr (Or.inr (Or.inr (Or.inr (Or.inl ⟨_, _, hc2⟩))))), ?_⟩
      intro dd hdd
      rcases List.mem_append.mp hdd with h1 | h2
      · simp [installHead3] at h1
      · exact htr dd h2
  | ok _ =>
  simp only [hc2] at h ⊢
  cases hrm : env.remove_dir_all with
  | error e1 =>
      simp only [hrm] at h ⊢
      obtain rfl : e1 = e := by simpa using h
      refine ⟨Or.inr (Or.inr (Or.inr (Or.inr (Or.inr (Or.inr hrm))))), ?_⟩
      intro dd hdd
      rcases List.mem_append.mp hdd with h1 | h2
      · rcases List.mem_append.mp h1 with h3 | h4
        · simp [installHead3] at h3
        · exact htr dd h4
      · simp at h2
  | ok _ =>
      simp only [hrm] at h
      exact absurd h (by simp)

theorem mem_sqlCopyEvents (x : Path) (listing : List DirEntry) (ev : Ev)
    (h : ev ∈ sqlCopyEvents x listing) :
    ∃ nm, strStartsWith nm "vectors--" = true
      ∧ ev = Ev.copyFile (scratchDir.join nm) (x.join nm) := by
  simp only [sqlCopyEvents, List.mem_map, List.mem_filter] at h
  obtain ⟨e, ⟨_, hf⟩, rfl⟩ := h
  exact ⟨e.name, (Bool.and_eq_true ..).mp hf |>.2, rfl⟩

theorem startTrace_classify (env : MainEnv) (ev : Ev) (h : ev ∈ startTrace env) :
    startEvOk env ev := by
  unfold startTrace at h
  rcases List.mem_append.mp h with h | h
  · rcases List.mem_append.mp h with h | h
    · rcases List.mem_append.mp h with h | h
      · by_cases hc : env.password_file_exists = true <;> simp [hc] at h
        subst h; trivial
      · simp only [List.mem_cons, List.mem_singleton, List.not_mem_nil, or_false] at h
        rcases h with rfl | rfl | rfl | rfl | rfl | rfl <;> simp [startEvOk]
    · by_cases hc : env.db_exists = true <;> simp [hc] at h
      subst h; simp [startEvOk]
  · simp only [List.mem_singleton] at h
    subst h; exact ⟨rfl, rfl⟩

theorem demoTrace_classify (pid : Nat) (env : MainEnv) (ev : Ev)
    (h : ev ∈ demoTrace pid env) : demoEvOk pid ev := by
  unfold demoTrace at h
  rcases List.mem_append.mp h with h | h
  swap
  · unfold search_similar_vectors_trace at h
    rcases List.mem_append.mp h with h | h
    · simp only [List.mem_cons, List.mem_singleton, List.not_mem_nil, or_false] at h
      rcases h with rfl | rfl
      · exact ⟨rfl, by simp [demoSqls]⟩
      · trivial
    · obtain ⟨r, _, rfl⟩ := List.mem_map.mp h
      trivial
  rcases List.mem_append.mp h with h | h
  swap
  · simp only [List.mem_singleton] at h; subst h; trivial
  rcases List.mem_append.mp h with h | h
  swap
  · unfold demonstrate_vector_operations_trace at h
    obtain ⟨q, hq, hm⟩ := List.mem_flatMap.mp h
    simp only [List.mem_cons, List.mem_singleton, List.not_mem_nil, or_false] at hm
    rcases hm with rfl | rfl
    · exact ⟨rfl, by simp [demoSqls, hq]⟩
    · trivial
  rcases List.mem_append.mp h with h | h
  swap
  · simp only [List.mem_singleton] at h; subst h; trivial
  rcases List.mem_append.mp h with h | h
  swap
  · unfold insert_vector_data_trace at h
    simp only [List.mem_cons, List.mem_singleton, List.not_mem_nil, or_false] at h
    rcases h with rfl | rfl
    · exact ⟨rfl, by simp [demoSqls]⟩
    · exact ⟨rfl, by simp [demoSqls]⟩
  rcases List.mem_append.mp h with h | h
  swap
  · simp only [List.mem_singleton] at h; subst h; trivial
  rcases List.mem_append.mp h with h | h
  · simp only [List.mem_singleton] at h; subst h; trivial
  · unfold create_table_items_trace at h
    simp only [List.mem_singleton] at h; subst h
    exact ⟨rfl, by simp [demoSqls]⟩

end Pgevdb

namespace Pgevdb

set_option maxRecDepth 20000

theorem pathExists_iff_keys (g : FS) (p : Path) :
    pathExists g p ↔ ∃ k ∈ g.map Prod.fst, p.under k := by
  unfold pathExists
  constructor
  · rintro ⟨e, he, hu⟩
    exact ⟨e.1, List.mem_map_of_mem _ he, hu⟩
  · rintro ⟨k, hk, hu⟩
    obtain ⟨e, he, rfl⟩ := List.mem_map.mp hk
    exact ⟨e, he, hu⟩

theorem removesOf_append (a b : List Ev) :
    removesOf (a ++ b) = removesOf a ++ removesOf b :=
  List.flatMap_append ..

theorem writesOf_append (a b : List Ev) :
    writesOf (a ++ b) = writesOf a ++ writesOf b :=
  List.flatMap_append ..

theorem removesOf_sqlCopyEvents (x : Path) (listing : List DirEntry) :
    removesOf (sqlCopyEvents x listing) = [] := by
  unfold sqlCopyEvents
  induction listing.filter (fun e => e.is_file && strStartsWith e.name "vectors--") with
  | nil => rfl
  | cons a t ih => simp only [removesOf, List.flatMap_cons] at ih ⊢; simp [ih]

end Pgevdb

/-! ## Claim theorems -/

namespace Pgevdb

set_option maxRecDepth 20000

/-- C2: on success, `install_pg_vectors_extension` performs exactly, in
order: the HTTP GET of the fixed URL, the extraction into the scratch
directory, the copy of the compiled library into the version-qualified
`lib` directory, the copies of every scratch file named `vectors--*` into
`share/extension`, the copy of `vectors.control` there, and the recursive
deletion of the scratch directory — after which the scratch directory no
longer exists. -/
theorem install_success_steps (install_dir : Path) (archive : List (String × String))
    (listing : List DirEntry) (fs : FS) :
    install_pg_vectors_extension_trace install_dir archive listing
      = [Ev.httpGet EXTENSION_URL,
         Ev.extractZip scratchDir archive,
         Ev.copyFile (scratchDir.join "vectors.so") ((pkglibdirOf install_dir).join "vectors.so")]
        ++ (listing.filter (fun e => e.is_file && strStartsWith e.name "vectors--")).map
            (fun e => Ev.copyFile (scratchDir.join e.name)
              ((extensionDirOf install_dir).join e.name))
        ++ [Ev.copyFile (scratchDir.join "vectors.control")
              ((extensionDirOf install_dir).join "vectors.control"),
            Ev.removeDirAll scratchDir]
    ∧ ¬ pathExists
        (applyTrace fs (install_pg_vectors_extension_trace install_dir archive listing))
        scratchDir :=
  ⟨rfl, scratch_gone_after_install install_dir archive listing fs⟩

/-- C2 witness: on a concrete install the scratch directory is gone. -/
theorem install_success_steps_witness :
    ¬ pathExists
      (applyTrace [] (install_pg_vectors_extension_trace sampleInstallDir
        sampleEnv.archive sampleEnv.listing))
      scratchDir :=
  (install_success_steps sampleInstallDir sampleEnv.archive sampleEnv.listing []).2

/-- C3: `is_pg_vectors_extension_installed` holds exactly when
`install_dir/16.3.0/lib/vectors.so` exists; it depends only on which paths
exist (not on any file content), and any write to that path — whatever the
content — makes it hold. -/
theorem is_installed_pure_existence_check (fs : FS) (install_dir : Path) :
    (is_pg_vectors_extension_installed fs install_dir
      ↔ pathExists fs (((install_dir.join PG_VERSION).join "lib").join "vectors.so"))
    ∧ (∀ fs2 : FS, fs.map Prod.fst = fs2.map Prod.fst →
        (is_pg_vectors_extension_installed fs install_dir
          ↔ is_pg_vectors_extension_installed fs2 install_dir))
    ∧ (∀ c : String,
        is_pg_vectors_extension_installed
          (fsWrite fs (((install_dir.join PG_VERSION).join "lib").join "vectors.so") c)
          install_dir) := by
  refine ⟨Iff.rfl, ?_, ?_⟩
  · intro fs2 hk
    unfold is_pg_vectors_extension_installed
    rw [pathExists_iff_keys, pathExists_iff_keys, hk]
  · intro c
    exact pathExists_fsWrite_self _ _ _

/-- C3 witness: with the library file present but holding "partial"
content, the installed check still reports true. -/
theorem is_installed_pure_existence_check_witness :
    is_pg_vectors_extension_installed
      [(⟨true, ["root", "data", "pg", "16.3.0", "lib", "vectors.so"]⟩, "partial")]
      sampleInstallDir :=
  ((is_installed_pure_existence_check
      [(⟨true, ["root", "data", "pg", "16.3.0", "lib", "vectors.so"]⟩, "full")]
      sampleInstallDir).2.1
    [(⟨true, ["root", "data", "pg", "16.3.0", "lib", "vectors.so"]⟩, "partial")]
    (by decide)).mp (by decide)

/-- C6: the configurator issues exactly two statements, in order: an
`ALTER SYSTEM SET shared_preload_libraries` naming the extension library,
then an `ALTER SYSTEM SET search_path` whose value ends with the extension
schema `vectors`; every event of its trace is a statement on the given
connection (in particular it neither stops, starts nor restarts the
server). -/
theorem configure_exactly_two_statements :
    configure_pg_vectors_extension_trace
      = [Ev.connExec (renderAlterSystemSet preloadSetting),
         Ev.connExec (renderAlterSystemSet searchPathSetting)]
    ∧ preloadSetting = ⟨"shared_preload_libraries", "\"vectors.so\""⟩
    ∧ searchPathSetting = ⟨"search_path", "\"$user\", public, vectors"⟩
    ∧ (∃ a, searchPathSetting.value = a ++ "vectors")
    ∧ (configure_pg_vectors_extension_trace.all fun ev =>
        match ev with
        | Ev.connExec _ => true
        | _ => false) = true :=
  ⟨rfl, rfl, rfl, ⟨"\"$user\", public, ", rfl⟩, rfl⟩

/-- C7 counterexample: the two INSERT statements of `insert_vector_data`
hold four VALUES items in total, not two. -/
theorem insert_rows_not_two :
    ¬ (insertStmt1.values ++ insertStmt2.values).length = 2 := by
  decide

/-- C7 amended: the demo insert step inserts exactly four fixed rows — two
via the textual vector literal syntax and two via the typed real-array
cast syntax, the vectors [1,2,3] and [4,5,6] under each syntax — so that
subsequent queries run against rows whose distinct vector values are
[1,2,3] and [4,5,6].  The structured statements render to the exact SQL
texts of the source. -/
theorem insert_vector_data_four_rows :
    renderInsertStmt insertStmt1 = INSERT_TEXTUAL_SQL
    ∧ renderInsertStmt insertStmt2 = INSERT_CAST_SQL
    ∧ (∀ pid, insert_vector_data_trace pid
        = [Ev.poolQuery pid (renderInsertStmt insertStmt1),
           Ev.poolQuery pid (renderInsertStmt insertStmt2)])
    ∧ insertedValues.length = 4
    ∧ (insertedValues.filter InsertValue.isTextual).map InsertValue.vec
        = [[1, 2, 3], [4, 5, 6]]
    ∧ (insertedValues.filter fun v => !(v.isTextual)).map InsertValue.vec
        = [[1, 2, 3], [4, 5, 6]]
    ∧ (insertedValues.map InsertValue.vec).dedup = [[1, 2, 3], [4, 5, 6]] :=
  ⟨rfl, rfl, fun _ => rfl, by decide, by decide, by decide, by decide⟩

/-- C7 amended witness: instantiation of the trace shape at pool 0. -/
theorem insert_vector_data_four_rows_witness :
    insert_vector_data_trace 0
      = [Ev.poolQuery 0 (renderInsertStmt insertStmt1),
         Ev.poolQuery 0 (renderInsertStmt insertStmt2)] :=
  insert_vector_data_four_rows.2.2.1 0

/-- C8: the demo runner evaluates exactly the three fixed distance
operators `<->`, `<#>`, `<=>`, each between the literal vectors [1,2,3]
and [3,2,1], printing each query with its numeric result, and then runs
the single nearest-neighbor query ordered by distance to [3,2,1] with
LIMIT 5, printing one line per returned row with its id and its vector
rendered as text. -/
theorem demo_operations_fixed_queries (pid : Nat) (res : String → String)
    (rows : List (Int × String)) :
    queryTextsOf (demonstrate_vector_operations_trace pid res) = DEMO_QUERIES
    ∧ DEMO_QUERIES = demoDistanceQueries.map renderDistanceQuery
    ∧ demoDistanceQueries.map DistanceQuery.left = [[1, 2, 3], [1, 2, 3], [1, 2, 3]]
    ∧ demoDistanceQueries.map DistanceQuery.right = [[3, 2, 1], [3, 2, 1], [3, 2, 1]]
    ∧ demoDistanceQueries.map DistanceQuery.op = ["<->", "<#>", "<=>"]
    ∧ demoDistanceQueries.map DistanceQuery.label
        = ["squared_euclidean_distance", "negative_dot_product", "cosine_distance"]
    ∧ printsOf (demonstrate_vector_operations_trace pid res)
        = DEMO_QUERIES.map (fun q => q ++ ": " ++ res q)
    ∧ queryTextsOf (search_similar_vectors_trace pid rows) = [SEARCH_SQL]
    ∧ SEARCH_SQL = renderSearchQuery searchQueryView
    ∧ searchQueryView = ⟨[3, 2, 1], 5⟩
    ∧ printsOf (search_similar_vectors_trace pid rows)
        = "Similar vectors:"
          :: rows.map (fun r => "ID: " ++ toString r.1 ++ ", Embedding: " ++ r.2) := by
  refine ⟨rfl, rfl, by decide, by decide, by decide, by decide, rfl, ?_, rfl, rfl, ?_⟩
  · simp [queryTextsOf, search_similar_vectors_trace, List.filterMap_append,
      List.filterMap_map]
  · simp only [printsOf, search_similar_vectors_trace, List.filterMap_append,
      List.filterMap_map, List.filterMap_cons, List.filterMap_nil, List.cons_append,
      List.nil_append]
    exact congrArg _ (List.filterMap_eq_map_iff_forall_eq_some.mpr fun r _ => rfl)

/-- C8 witness: instantiation at pool 0, a constant result function, and
one returned row. -/
theorem demo_operations_fixed_queries_witness :
    queryTextsOf (demonstrate_vector_operations_trace 0 (fun _ => "8")) = DEMO_QUERIES
    ∧ printsOf (search_similar_vectors_trace 0 [(1, "[1,2,3]")])
        = ["Similar vectors:", "ID: 1, Embedding: [1,2,3]"] :=
  ⟨(demo_operations_fixed_queries 0 (fun _ => "8") [(1, "[1,2,3]")]).1,
   (demo_operations_fixed_queries 0 (fun _ => "8") [(1, "[1,2,3]")]).2.2.2.2.2.2.2.2.2.2⟩

/-- C10: the scratch directory is the relative path `vectors` (resolved
under the working directory), the success path's only recursive deletion
is of that directory, after the trace nothing at or under it exists
(whatever was there before), and every path written by the installer lies
under the scratch directory, the version-qualified `lib` directory, or the
`share/extension` directory. -/
theorem install_scratch_dir_and_frame (cwd install_dir : Path)
    (archive : List (String × String)) (listing : List DirEntry) :
    scratchDir = ⟨false, ["vectors"]⟩
    ∧ Path.resolve cwd scratchDir = ⟨cwd.absolute, cwd.comps ++ ["vectors"]⟩
    ∧ removesOf (install_pg_vectors_extension_trace install_dir archive listing)
        = [scratchDir]
    ∧ (∀ fs : FS, ¬ pathExists
        (applyTrace fs (install_pg_vectors_extension_trace install_dir archive listing))
        scratchDir)
    ∧ (∀ p ∈ writesOf (install_pg_vectors_extension_trace install_dir archive listing),
        scratchDir.under p ∨ (pkglibdirOf install_dir).under p
        ∨ (extensionDirOf install_dir).under p) := by
  refine ⟨rfl, by simp [Path.resolve, scratchDir], ?_,
    fun fs => scratch_gone_after_install install_dir archive listing fs, ?_⟩
  · unfold install_pg_vectors_extension_trace
    rw [removesOf_append, removesOf_append, removesOf_sqlCopyEvents]
    rfl
  · intro p hp
    unfold install_pg_vectors_extension_trace at hp
    rw [writesOf_append, writesOf_append] at hp
    rcases List.mem_append.mp hp with hp | hp
    · rcases List.mem_append.mp hp with hp | hp
      · simp only [writesOf, List.flatMap_cons, List.flatMap_nil, writesOfEv,
          List.append_nil, List.nil_append, List.mem_append, List.mem_map,
          List.mem_singleton] at hp
        rcases hp with ⟨f, _, rfl⟩ | rfl
        · exact Or.inl (Path.under_join _ _)
        · exact Or.inr (Or.inl (Path.under_join _ _))
      · unfold sqlCopyEvents at hp
        simp only [writesOf, List.flatMap_map] at hp
        obtain ⟨e, _, hpe⟩ := List.mem_flatMap.mp hp
        simp only [writesOfEv, Function.comp, List.mem_singleton] at hpe
        subst hpe
        exact Or.inr (Or.inr (Path.under_join _ _))
    · simp only [writesOf, List.flatMap_cons, List.flatMap_nil, writesOfEv,
        List.append_nil, List.nil_append, List.mem_append, List.mem_singleton,
        List.not_mem_nil, or_false] at hp
      subst hp
      exact Or.inr (Or.inr (Path.under_join _ _))

/-- C10 witness: the deletions of a concrete install trace are exactly the
scratch directory, and nothing under it survives. -/
theorem install_scratch_dir_and_frame_witness :
    removesOf (install_pg_vectors_extension_trace sampleInstallDir
      sampleEnv.archive sampleEnv.listing) = [scratchDir]
    ∧ ¬ pathExists
        (applyTrace [(scratchDir.join "stale", "old")]
          (install_pg_vectors_extension_trace sampleInstallDir
            sampleEnv.archive sampleEnv.listing))
        scratchDir :=
  ⟨(install_scratch_dir_and_frame sampleInstallDir sampleInstallDir
      sampleEnv.archive sampleEnv.listing).2.2.1,
   (install_scratch_dir_and_frame sampleInstallDir sampleInstallDir
      sampleEnv.archive sampleEnv.listing).2.2.2.1 [(scratchDir.join "stale", "old")]⟩

/-- C4: when any step of the installer fails, the failing primitive's
error is returned verbatim (never caught, retried or downgraded), no
cleanup happens (in particular the scratch directory is not deleted), and
every file successfully copied before the failure still exists in the
resulting filesystem. -/
theorem install_failure_propagates_no_rollback (env : InstallEnv) (install_dir : Path)
    (e : String) (h : (install_pg_vectors_extension_run env install_dir).2 = some e) :
    errorFromPrimitive env e
    ∧ Ev.removeDirAll scratchDir ∉ (install_pg_vectors_extension_run env install_dir).1
    ∧ ∀ (fs : FS) (src dst : Path),
        Ev.copyFile src dst ∈ (install_pg_vectors_extension_run env install_dir).1 →
        pathExists (applyTrace fs (install_pg_vectors_extension_run env install_dir).1) dst := by
  obtain ⟨h1, h2⟩ := run_error_shape env install_dir e h
  exact ⟨h1, h2 scratchDir, fun fs src dst hm => copies_persist _ fs src dst h2 hm⟩

/-- C4 witness: with a concrete environment whose `vectors.control` copy
fails with "disk full", the run fails with exactly that error, performs no
deletion, and the library file it copied earlier is still present. -/
theorem install_failure_propagates_no_rollback_witness :
    errorFromPrimitive failingCopyEnv "disk full"
    ∧ Ev.removeDirAll scratchDir
        ∉ (install_pg_vectors_extension_run failingCopyEnv sampleInstallDir).1
    ∧ pathExists
        (applyTrace []
          (install_pg_vectors_extension_run failingCopyEnv sampleInstallDir).1)
        ((pkglibdirOf sampleInstallDir).join "vectors.so") :=
  ⟨(install_failure_propagates_no_rollback failingCopyEnv sampleInstallDir "disk full"
      (by decide)).1,
   (install_failure_propagates_no_rollback failingCopyEnv sampleInstallDir "disk full"
      (by decide)).2.1,
   (install_failure_propagates_no_rollback failingCopyEnv sampleInstallDir "disk full"
      (by decide)).2.2 [] (scratchDir.join "vectors.so")
      ((pkglibdirOf sampleInstallDir).join "vectors.so") (by decide)⟩

/-- C1: after start and database ensure, the installation block
(download, configure statements, server restart, CREATE EXTENSION) is
executed if and only if the on-disk installed check is false; when the
check is true none of those events occur; and in either case the trace
ends with the demo section, on pool 1 after a reinstall and on the
original pool 0 otherwise. -/
theorem main_installed_check_gates_setup (env : MainEnv) :
    (Ev.httpGet EXTENSION_URL ∈ mainTrace env
      ↔ ¬ is_pg_vectors_extension_installed env.fs0 (installationDirOf env))
    ∧ (Ev.connExec ALTER_PRELOAD_SQL ∈ mainTrace env
      ↔ ¬ is_pg_vectors_extension_installed env.fs0 (installationDirOf env))
    ∧ (Ev.connExec ALTER_SEARCH_PATH_SQL ∈ mainTrace env
      ↔ ¬ is_pg_vectors_extension_installed env.fs0 (installationDirOf env))
    ∧ (Ev.serverStop ∈ mainTrace env
      ↔ ¬ is_pg_vectors_extension_installed env.fs0 (installationDirOf env))
    ∧ ((∃ pid, Ev.poolQuery pid CREATE_EXTENSION_SQL ∈ mainTrace env)
      ↔ ¬ is_pg_vectors_extension_installed env.fs0 (installationDirOf env))
    ∧ (∃ front, mainTrace env
        = front ++ demoTrace
            (if is_pg_vectors_extension_installed env.fs0 (installationDirOf env)
             then 0 else 1) env) := by
  by_cases hI : is_pg_vectors_extension_installed env.fs0 (installationDirOf env)
  · have hmain : mainTrace env = startTrace env ++ demoTrace 0 env := by
      simp [mainTrace, hI]
    have hno : ∀ ev, ev ∈ mainTrace env → startEvOk env ev ∨ demoEvOk 0 ev := by
      intro ev hm
      rw [hmain] at hm
      rcases List.mem_append.mp hm with hm | hm
      · exact Or.inl (startTrace_classify env ev hm)
      · exact Or.inr (demoTrace_classify 0 env ev hm)
    refine ⟨?_, ?_, ?_, ?_, ?_, ?_⟩
    · refine ⟨fun hm => ?_, fun hni => absurd hI hni⟩
      rcases hno _ hm with hs | hd
      · exact absurd hs (by simp [startEvOk])
      · exact absurd hd (by simp [demoEvOk])
    · refine ⟨fun hm => ?_, fun hni => absurd hI hni⟩
      rcases hno _ hm with hs | hd
      · exact absurd hs (by simp [startEvOk])
      · exact absurd hd (by simp [demoEvOk])
    · refine ⟨fun hm => ?_, fun hni => absurd hI hni⟩
      rcases hno _ hm with hs | hd
      · exact absurd hs (by simp [startEvOk])
      · exact absurd hd (by simp [demoEvOk])
    · refine ⟨fun hm => ?_, fun hni => absurd hI hni⟩
      rcases hno _ hm with hs | hd
      · exact absurd hs (by simp [startEvOk])
      · exact absurd hd (by simp [demoEvOk])
    · refine ⟨fun hm => ?_, fun hni => absurd hI hni⟩
      obtain ⟨pid, hm⟩ := hm
      rcases hno _ hm with hs | hd
      · exact absurd hs (by simp [startEvOk])
      · exact absurd hd.2 (by decide)
    · exact ⟨startTrace env, by rw [if_pos hI]; exact hmain⟩
  · have hmain : mainTrace env
        = startTrace env ++ installBlockTrace env ++ demoTrace 1 env := by
      simp [mainTrace, hI]
    have hblock : ∀ ev, ev ∈ installBlockTrace env → ev ∈ mainTrace env := by
      intro ev hm
      rw [hmain]
      exact List.mem_append.mpr (Or.inl (List.mem_append.mpr (Or.inr hm)))
    refine ⟨?_, ?_, ?_, ?_, ?_, ?_⟩
    · exact ⟨fun _ => hI, fun _ => hblock _ (by
        simp [installBlockTrace, install_pg_vectors_extension_trace])⟩
    · exact ⟨fun _ => hI, fun _ => hblock _ (by
        simp [installBlockTrace, configure_pg_vectors_extension_trace])⟩
    · exact ⟨fun _ => hI, fun _ => hblock _ (by
        simp [installBlockTrace, configure_pg_vectors_extension_trace])⟩
    · exact ⟨fun _ => hI, fun _ => hblock _ (by simp [installBlockTrace])⟩
    · exact ⟨fun _ => hI, fun _ => ⟨1, hblock _ (by
        simp [installBlockTrace, enable_pg_vectors_extension_trace])⟩⟩
    · exact ⟨startTrace env ++ installBlockTrace env, by rw [if_neg hI]; exact hmain⟩

/-- C1 witness: on a fresh filesystem the installation events occur; with
the library file already present the server is never stopped. -/
theorem main_installed_check_gates_setup_witness :
    Ev.httpGet EXTENSION_URL ∈ mainTrace sampleEnv
    ∧ Ev.serverStop ∉ mainTrace sampleEnvInstalled :=
  ⟨(main_installed_check_gates_setup sampleEnv).1.mpr (by decide),
   fun hm =>
     ((main_installed_check_gates_setup sampleEnvInstalled).2.2.2.1.mp hm) (by decide)⟩

/-- C5: on the installation path the restart is stop-then-start, the old
pool (0) is closed before the new pool (1) is connected on the same
database URL, and every event after the restart segment queries only pool
1 — in particular the extension activation happens there, and no statement
on the old pool's detached connection and no acquire from the old pool
occurs after the restart. -/
theorem restart_discards_old_pool (env : MainEnv)
    (h : ¬ is_pg_vectors_extension_installed env.fs0 (installationDirOf env)) :
    ∃ pre post,
      mainTrace env
        = pre ++ [Ev.serverStop, Ev.serverStart, Ev.poolClose 0,
                  Ev.poolConnect 1 env.database_url] ++ post
      ∧ (∀ pid s, Ev.poolQuery pid s ∈ post → pid = 1)
      ∧ (∀ s, Ev.connExec s ∉ post)
      ∧ (∀ pid, Ev.poolAcquire pid ∉ post)
      ∧ Ev.poolQuery 1 CREATE_EXTENSION_SQL ∈ post := by
  refine ⟨startTrace env ++ ([Ev.poolAcquire 0]
      ++ install_pg_vectors_extension_trace (installationDirOf env) env.archive env.listing
      ++ configure_pg_vectors_extension_trace),
    enable_pg_vectors_extension_trace 1 ++ demoTrace 1 env, ?_, ?_, ?_, ?_, ?_⟩
  · simp [mainTrace, h, installBlockTrace, List.append_assoc]
  · intro pid s hm
    rcases List.mem_append.mp hm with hm | hm
    · simp only [enable_pg_vectors_extension_trace, List.mem_singleton] at hm
      cases hm
      rfl
    · exact (demoTrace_classify 1 env _ hm).1
  · intro s hm
    rcases List.mem_append.mp hm with hm | hm
    · simp [enable_pg_vectors_extension_trace] at hm
    · exact demoTrace_classify 1 env _ hm
  · intro pid hm
    rcases List.mem_append.mp hm with hm | hm
    · simp [enable_pg_vectors_extension_trace] at hm
    · exact demoTrace_classify 1 env _ hm
  · exact List.mem_append.mpr (Or.inl (by simp [enable_pg_vectors_extension_trace]))

/-- C5 witness: the restart/pool discipline at the concrete fresh
environment. -/
theorem restart_discards_old_pool_witness :
    ∃ pre post,
      mainTrace sampleEnv
        = pre ++ [Ev.serverStop, Ev.serverStart, Ev.poolClose 0,
                  Ev.poolConnect 1 sampleEnv.database_url] ++ post
      ∧ (∀ pid s, Ev.poolQuery pid s ∈ post → pid = 1)
      ∧ (∀ s, Ev.connExec s ∉ post)
      ∧ (∀ pid, Ev.poolAcquire pid ∉ post)
      ∧ Ev.poolQuery 1 CREATE_EXTENSION_SQL ∈ post :=
  restart_discards_old_pool sampleEnv (by decide)

/-- C9: the demo section runs on every successful run — whatever the
installed check returned, the trace contains the conditional table
creation and both unconditional INSERT statements — and since the two
statements insert four rows with values [1,2,3], [4,5,6], [1,2,3],
[4,5,6], each run appends those four rows to the persistent items table,
so repeated runs accumulate duplicates. -/
theorem demo_insert_unconditional_accumulates (env : MainEnv) :
    (∃ pid, Ev.poolQuery pid CREATE_TABLE_ITEMS_SQL ∈ mainTrace env
      ∧ Ev.poolQuery pid INSERT_TEXTUAL_SQL ∈ mainTrace env
      ∧ Ev.poolQuery pid INSERT_CAST_SQL ∈ mainTrace env)
    ∧ strStartsWith CREATE_TABLE_ITEMS_SQL "CREATE TABLE IF NOT EXISTS" = true
    ∧ insertedValues.length = 4
    ∧ (∀ rows, demoTableRun (some rows)
        = some (rows ++ insertedValues.map InsertValue.vec))
    ∧ demoTableRun (demoTableRun none)
        = some (insertedValues.map InsertValue.vec ++ insertedValues.map InsertValue.vec)
    ∧ 2 ≤ ((demoTableRun (demoTableRun none)).getD []).count [1, 2, 3] := by
  have hdemo : ∀ ev pid, ev ∈ demoTrace pid env →
      ev ∈ startTrace env
          ++ (if is_pg_vectors_extension_installed env.fs0 (installationDirOf env)
              then [] else installBlockTrace env)
          ++ demoTrace pid env :=
    fun ev pid hm => List.mem_append.mpr (Or.inr hm)
  refine ⟨?_, by decide, by decide, ?_, ?_, by decide⟩
  · refine ⟨if is_pg_vectors_extension_installed env.fs0 (installationDirOf env)
      then 0 else 1, ?_, ?_, ?_⟩
    · exact hdemo _ _ (by simp [demoTrace, create_table_items_trace])
    · exact hdemo _ _ (by simp [demoTrace, insert_vector_data_trace])
    · exact hdemo _ _ (by simp [demoTrace, insert_vector_data_trace])
  · intro rows
    simp [demoTableRun, create_table_items_state, applyInsertStmt, insertedValues]
  · simp [demoTableRun, create_table_items_state, applyInsertStmt, insertedValues]

/-- C9 witness: the statements occur in the concrete fresh run's trace,
and two consecutive runs leave eight rows. -/
theorem demo_insert_unconditional_accumulates_witness :
    (∃ pid, Ev.poolQuery pid CREATE_TABLE_ITEMS_SQL ∈ mainTrace sampleEnv
      ∧ Ev.poolQuery pid INSERT_TEXTUAL_SQL ∈ mainTrace sampleEnv
      ∧ Ev.poolQuery pid INSERT_CAST_SQL ∈ mainTrace sampleEnv)
    ∧ demoTableRun (demoTableRun none)
        = some (insertedValues.map InsertValue.vec ++ insertedValues.map InsertValue.vec) :=
  ⟨(demo_insert_unconditional_accumulates sampleEnv).1,
   (demo_insert_unconditional_accumulates sampleEnv).2.2.2.2.1⟩

end Pgevdb
